import Mathlib

/-!
# Verification of the mrf-engine extraction and orchestration modules

Shallow embedding of the core of the `mrf-engine` repository:

* `src/src/extract_rates.py` — `RateExtractor` (rate row builder, batch
  writer, backup consolidation, metadata scan);
* `src/src/extract_providers_pro.py` — `ProviderExtractor` (provider-group
  reference resolution, TIN filtering, batch writer, metadata scan);
* `src/src/extraction_orchestrator.py` — subprocess outcome classification
  and manifest construction.

Python dictionaries decoded from the source documents are modelled as
structures whose optional keys are `Option` fields; machine floats
(`float(p.get("negotiated_rate", 0))`) are modelled as exact rationals, since
no property below depends on rounding; the parquet files are modelled by the
lists of rows they hold; the network is modelled as a function from URLs to
fetch results.  Each definition's doc comment names the source function and
lines it embeds.
-/

namespace MrfEngine

/-- File-level metadata collected by the metadata scan and stamped on every
output row (`file_meta` / `file_metadata` in the sources): an association of
the four top-level scalar keys to their values. -/
abbrev FileMeta := List (String × String)

/-- The `tin` object of a provider group: `{"type": ..., "value": ...}`.
`value` is `Option` because the key may be absent (the source reads it with
`tin_info.get("value", "")`). -/
structure TinInfo where
  tinType : String
  value : Option String
  deriving Repr, DecidableEq

/-- One provider group: `{"tin": {...}, "npi": [...]}`.  `tin = none` models
an absent or empty `tin` object (`group.get("tin", {}) or {}`). -/
structure ProviderGroup where
  tin : Option TinInfo
  npi : List String
  deriving Repr, DecidableEq

/-- One entry of the top-level `provider_references` array:
`{"provider_group_id": ..., "provider_groups": [...], "location": ...}`.
`provider_group_id = none` models an absent id (`provider_ref.get(...)`
returning `None`); `provider_groups = []` models an absent or empty inline
array; `location = none` an absent location key. -/
structure ProviderRef where
  provider_group_id : Option Int
  provider_groups : List ProviderGroup
  location : Option String
  deriving Repr, DecidableEq

/-- One output row of the provider extractor
(`extract_providers_pro.py` lines 195-201). -/
structure ProvRow where
  provider_group_id : Option Int
  npi : String
  tin_type : String
  tin_value : String
  meta : FileMeta
  deriving Repr, DecidableEq

/-- One negotiated price entry of a rate group.  `negotiated_rate = none`
models an absent key, defaulted to zero by the row builder
(`float(p.get("negotiated_rate", 0))`). -/
structure Price where
  negotiated_rate : Option Rat
  negotiated_type : String
  billing_class : String
  expiration_date : String
  service_code : List String
  deriving Repr, DecidableEq

/-- One rate group of an `in_network` item:
`{"provider_references": [ids], "negotiated_prices": [...]}`. -/
structure RateGroup where
  provider_references : List Int
  negotiated_prices : List Price
  deriving Repr, DecidableEq

/-- One `in_network` item (billing code, descriptive fields, rate groups). -/
structure InNetworkItem where
  billing_code : String
  billing_code_type : String
  description : String
  name : String
  negotiation_arrangement : String
  negotiated_rates : List RateGroup
  deriving Repr, DecidableEq

/-- One output row of the rate extractor
(`extract_rates.py` lines 195-211). -/
structure RateRow where
  provider_reference_id : Int
  negotiated_rate : Rat
  negotiated_type : String
  billing_class : String
  expiration_date : String
  service_codes : String
  billing_code : String
  billing_code_type : String
  description : String
  name : String
  negotiation_arrangement : String
  meta : FileMeta
  deriving Repr, DecidableEq

namespace RateExtractor

/-- State of the rate extractor's batch writer: the pending in-memory batch
(`self.rates_batch`) and the row groups already appended to the output
parquet file by the `pyarrow.parquet.ParquetWriter` (`self._writer`).  The
schema fixing and casting of `_write_batch` change column layout only, never
rows, so the file is modelled by its row groups. -/
structure WriterState where
  batch : List RateRow
  rowGroups : List (List RateRow)
  deriving Repr, DecidableEq

/-- `RateExtractor._write_batch` (extract_rates.py lines 142-163): a no-op on
an empty batch, otherwise the batch is appended to the file as one row group
and cleared. -/
def write_batch (st : WriterState) : WriterState :=
  if st.batch = [] then st
  else { batch := [], rowGroups := st.rowGroups ++ [st.batch] }

/-- One `self.rates_batch.append(...)` followed by the size check of
`_process_rate` (lines 204-217): flush automatically once the batch reaches
the configured batch size. -/
def appendRow (batchSize : Nat) (st : WriterState) (r : RateRow) : WriterState :=
  let st := { st with batch := st.batch ++ [r] }
  if batchSize ≤ st.batch.length then write_batch st else st

/-- The rows readable back from the output file: the concatenation of its row
groups. -/
def fileRows (st : WriterState) : List RateRow :=
  st.rowGroups.flatten

/-- Appending a sequence of rows one by one (with automatic flushes) and then
performing the final flush of `process_file` (lines 296-304). -/
def runWriter (batchSize : Nat) (rows : List RateRow) : WriterState :=
  write_batch (rows.foldl (appendRow batchSize) { batch := [], rowGroups := [] })

end RateExtractor

namespace ProviderExtractor

/-- State of the provider extractor's batch writer: the pending in-memory
batch (`self.providers_batch`) and the rows currently held by the output
parquet file.  `ProviderExtractor._write_batch` rewrites the whole file on
every flush (read existing, concatenate, write), so the file is modelled by
its full row list. -/
structure WriterState where
  batch : List ProvRow
  file : List ProvRow
  deriving Repr, DecidableEq

/-- `ProviderExtractor._write_batch` (extract_providers_pro.py lines 92-104):
a no-op on an empty batch, otherwise the existing file's rows (if the file
exists) are concatenated with the batch and written back, and the batch is
cleared. -/
def write_batch (st : WriterState) : WriterState :=
  if st.batch = [] then st
  else { batch := [], file := st.file ++ st.batch }

/-- One `self.providers_batch.append(rec)` followed by the size check of
`_process_provider_reference` (lines 202-207). -/
def appendRow (batchSize : Nat) (st : WriterState) (r : ProvRow) : WriterState :=
  let st := { st with batch := st.batch ++ [r] }
  if batchSize ≤ st.batch.length then write_batch st else st

/-- Appending a sequence of rows one by one (with automatic flushes) and then
performing the final flush of `process_file` (lines 262-263). -/
def runWriter (batchSize : Nat) (rows : List ProvRow) : WriterState :=
  write_batch (rows.foldl (appendRow batchSize) { batch := [], file := [] })

end ProviderExtractor

/-! ### Conservation of rows by the batch writers (claim C2) -/

theorem RateExtractor.fileRows_write_batch (st : RateExtractor.WriterState) :
    RateExtractor.fileRows (RateExtractor.write_batch st)
      = RateExtractor.fileRows st ++ st.batch := by
  unfold RateExtractor.write_batch
  split
  · simp_all [RateExtractor.fileRows]
  · simp [RateExtractor.fileRows]

theorem RateExtractor.fileRows_foldl_appendRow (batchSize : Nat) :
    ∀ (rows : List RateRow) (st : RateExtractor.WriterState),
      RateExtractor.fileRows (rows.foldl (RateExtractor.appendRow batchSize) st)
          ++ (rows.foldl (RateExtractor.appendRow batchSize) st).batch
        = RateExtractor.fileRows st ++ st.batch ++ rows := by
  intro rows
  induction rows with
  | nil => intro st; simp
  | cons r rest ih =>
      intro st
      have hstep :
          RateExtractor.fileRows (RateExtractor.appendRow batchSize st r)
              ++ (RateExtractor.appendRow batchSize st r).batch
            = RateExtractor.fileRows st ++ st.batch ++ [r] := by
        unfold RateExtractor.appendRow
        dsimp only
        split
        · rw [RateExtractor.fileRows_write_batch]
          simp [RateExtractor.write_batch, RateExtractor.fileRows]
        · simp [RateExtractor.fileRows]
      calc RateExtractor.fileRows ((r :: rest).foldl (RateExtractor.appendRow batchSize) st)
            ++ ((r :: rest).foldl (RateExtractor.appendRow batchSize) st).batch
          = RateExtractor.fileRows (RateExtractor.appendRow batchSize st r)
              ++ (RateExtractor.appendRow batchSize st r).batch ++ rest := by
            rw [List.foldl_cons]; exact ih _
        _ = RateExtractor.fileRows st ++ st.batch ++ [r] ++ rest := by rw [hstep]
        _ = RateExtractor.fileRows st ++ st.batch ++ (r :: rest) := by simp

theorem ProviderExtractor.file_write_batch (st : ProviderExtractor.WriterState) :
    (ProviderExtractor.write_batch st).file = st.file ++ st.batch := by
  unfold ProviderExtractor.write_batch
  split
  · simp_all
  · simp

theorem ProviderExtractor.file_foldl_appendRow (batchSize : Nat) :
    ∀ (rows : List ProvRow) (st : ProviderExtractor.WriterState),
      (rows.foldl (ProviderExtractor.appendRow batchSize) st).file
          ++ (rows.foldl (ProviderExtractor.appendRow batchSize) st).batch
        = st.file ++ st.batch ++ rows := by
  intro rows
  induction rows with
  | nil => intro st; simp
  | cons r rest ih =>
      intro st
      have hstep :
          (ProviderExtractor.appendRow batchSize st r).file
              ++ (ProviderExtractor.appendRow batchSize st r).batch
            = st.file ++ st.batch ++ [r] := by
        unfold ProviderExtractor.appendRow
        dsimp only
        split
        · rw [ProviderExtractor.file_write_batch]
          simp [ProviderExtractor.write_batch]
        · simp
      calc ((r :: rest).foldl (ProviderExtractor.appendRow batchSize) st).file
            ++ ((r :: rest).foldl (ProviderExtractor.appendRow batchSize) st).batch
          = (ProviderExtractor.appendRow batchSize st r).file
              ++ (ProviderExtractor.appendRow batchSize st r).batch ++ rest := by
            rw [List.foldl_cons]; exact ih _
        _ = st.file ++ st.batch ++ [r] ++ rest := by rw [hstep]
        _ = st.file ++ st.batch ++ (r :: rest) := by simp

/-- Both batch writers deliver the appended rows to the file intact: the run
leaves an empty pending batch and the file holds exactly the appended row
sequence. -/
theorem RateExtractor.runWriter_fileRows (batchSize : Nat) (rows : List RateRow) :
    RateExtractor.fileRows (RateExtractor.runWriter batchSize rows) = rows ∧
      (RateExtractor.runWriter batchSize rows).batch = [] := by
  unfold RateExtractor.runWriter
  have h := RateExtractor.fileRows_foldl_appendRow batchSize rows { batch := [], rowGroups := [] }
  rw [RateExtractor.fileRows_write_batch]
  constructor
  · simpa [RateExtractor.fileRows] using h
  · unfold RateExtractor.write_batch
    split
    · assumption
    · rfl

theorem ProviderExtractor.runWriter_file (batchSize : Nat) (rows : List ProvRow) :
    (ProviderExtractor.runWriter batchSize rows).file = rows ∧
      (ProviderExtractor.runWriter batchSize rows).batch = [] := by
  unfold ProviderExtractor.runWriter
  have h := ProviderExtractor.file_foldl_appendRow batchSize rows { batch := [], file := [] }
  rw [ProviderExtractor.file_write_batch]
  constructor
  · simpa using h
  · unfold ProviderExtractor.write_batch
    split
    · assumption
    · rfl

/-- C2: for every batch size and every sequence of rows appended to the batch
writer across arbitrarily many automatic flushes at batch-size boundaries,
the row count readable from the final output file equals the total number of
rows ever appended — no rows are lost and none are duplicated by intermediate
flushes.  This holds for both the rate writer (`RateExtractor._write_batch`)
and the provider writer (`ProviderExtractor._write_batch`). -/
theorem c2_batch_writer_conserves_rows (batchSize : Nat)
    (rateRows : List RateRow) (provRows : List ProvRow) :
    (RateExtractor.fileRows (RateExtractor.runWriter batchSize rateRows)).length
        = rateRows.length
    ∧ ((ProviderExtractor.runWriter batchSize provRows).file).length
        = provRows.length := by
  constructor
  · rw [(RateExtractor.runWriter_fileRows batchSize rateRows).1]
  · rw [(ProviderExtractor.runWriter_file batchSize provRows).1]

/-- C2 witness: batch size 3 with 7 rows appended yields exactly 7 rows
readable back. -/
theorem c2_batch_writer_conserves_rows_witness :
    (RateExtractor.fileRows (RateExtractor.runWriter 3 (List.replicate 7
        { provider_reference_id := 1, negotiated_rate := 2, negotiated_type := "",
          billing_class := "", expiration_date := "", service_codes := "",
          billing_code := "99213", billing_code_type := "", description := "",
          name := "", negotiation_arrangement := "", meta := [] }))).length
        = (List.replicate (n := 7)
            ({ provider_reference_id := 1, negotiated_rate := 2, negotiated_type := "",
               billing_class := "", expiration_date := "", service_codes := "",
               billing_code := "99213", billing_code_type := "", description := "",
               name := "", negotiation_arrangement := "", meta := [] } : RateRow)).length
    ∧ ((ProviderExtractor.runWriter 3 (List.replicate 7
        { provider_group_id := some 1, npi := "123", tin_type := "ein",
          tin_value := "55", meta := [] })).file).length
        = (List.replicate (n := 7)
            ({ provider_group_id := some 1, npi := "123", tin_type := "ein",
               tin_value := "55", meta := [] } : ProvRow)).length :=
  c2_batch_writer_conserves_rows 3 _ _

namespace RateExtractor

/-- The CPT whitelist filter of `_process_rate` (extract_rates.py lines
171-173): the whitelist is `none` when no filter is active (the constructor
stores `None` for an empty or missing whitelist), and an item is skipped when
a whitelist is active and its billing code is not a member. -/
def cptSkip (cptWhitelist : Option (List String)) (billingCode : String) : Bool :=
  match cptWhitelist with
  | some wl => decide (billingCode ∉ wl)
  | none => false

/-- The descriptive fields shared by every row of one item (`base_info`,
lines 175-182). -/
structure BaseInfo where
  billing_code : String
  billing_code_type : String
  description : String
  name : String
  negotiation_arrangement : String
  meta : FileMeta
  deriving Repr, DecidableEq

/-- `base_info` of `_process_rate` (lines 175-182). -/
def base_info (item : InNetworkItem) (meta : FileMeta) : BaseInfo :=
  { billing_code := item.billing_code,
    billing_code_type := item.billing_code_type,
    description := item.description,
    name := item.name,
    negotiation_arrangement := item.negotiation_arrangement,
    meta := meta }

/-- The precomputed price fields of one negotiated price (`price_rows`, lines
194-201).  `service_codes` is the textual rendering of the `service_code`
list (`str(p.get("service_code", []))`). -/
structure PriceFields where
  negotiated_rate : Rat
  negotiated_type : String
  billing_class : String
  expiration_date : String
  service_codes : String
  deriving Repr, DecidableEq

/-- One element of `price_rows` (lines 195-201): an absent rate defaults to
zero. -/
def priceFields (p : Price) : PriceFields :=
  { negotiated_rate := p.negotiated_rate.getD 0,
    negotiated_type := p.negotiated_type,
    billing_class := p.billing_class,
    expiration_date := p.expiration_date,
    service_codes := toString p.service_code }

/-- Assembly of one output row (lines 207-211). -/
def mkRateRow (providerRefId : Int) (pr : PriceFields) (base : BaseInfo) : RateRow :=
  { provider_reference_id := providerRefId,
    negotiated_rate := pr.negotiated_rate,
    negotiated_type := pr.negotiated_type,
    billing_class := pr.billing_class,
    expiration_date := pr.expiration_date,
    service_codes := pr.service_codes,
    billing_code := base.billing_code,
    billing_code_type := base.billing_code_type,
    description := base.description,
    name := base.name,
    negotiation_arrangement := base.negotiation_arrangement,
    meta := base.meta }

/-- The cross product of the double loop of `_process_rate` (lines 203-211):
one row per surviving provider-reference id per price entry, providers
outermost. -/
def crossRows (providers : List Int) (prices : List Price) (base : BaseInfo) :
    List RateRow :=
  let priceRows := prices.map priceFields
  (providers.map (fun pid => priceRows.map (fun pr => mkRateRow pid pr base))).flatten

/-- The per-rate-group body of `_process_rate` (lines 185-211): with an
active provider-group filter (`self.provider_group_filter` is `None` when the
constructor received an empty or missing filter) the provider-reference ids
are intersected with the filter and the whole rate group is skipped when the
intersection is empty; the surviving ids are crossed with the price
entries. -/
def rate_group_rows (flt : Option (List Int)) (base : BaseInfo) (rg : RateGroup) :
    List RateRow :=
  match flt with
  | some wl =>
      let providers := rg.provider_references.filter (fun p => decide (p ∈ wl))
      if providers = [] then []
      else crossRows providers rg.negotiated_prices base
  | none => crossRows rg.provider_references rg.negotiated_prices base

/-- The surviving provider-reference ids of a rate group: the intersection
with the filter when one is active, all ids otherwise. -/
def survivors (flt : Option (List Int)) (rg : RateGroup) : List Int :=
  match flt with
  | some wl => rg.provider_references.filter (fun p => decide (p ∈ wl))
  | none => rg.provider_references

/-- `RateExtractor._process_rate` (lines 167-217): the sequence of rows the
item appends to `self.rates_batch` (the batching itself is `appendRow`
above). -/
def process_rate (cptWhitelist : Option (List String)) (flt : Option (List Int))
    (meta : FileMeta) (item : InNetworkItem) : List RateRow :=
  if cptSkip cptWhitelist item.billing_code then []
  else (item.negotiated_rates.map (rate_group_rows flt (base_info item meta))).flatten

theorem crossRows_length (providers : List Int) (prices : List Price) (base : BaseInfo) :
    (crossRows providers prices base).length = providers.length * prices.length := by
  induction providers with
  | nil => simp [crossRows]
  | cons p rest ih =>
      simp only [crossRows, List.map_cons, List.flatten_cons, List.length_append,
        List.length_map] at ih ⊢
      rw [ih]
      simp only [List.length_cons]
      ring

end RateExtractor

/-- C6: for every negotiated item that is processed (not skipped by the CPT
whitelist) and every rate group in it, the rows the item contributes are the
concatenation of per-rate-group rows; a rate group whose provider-group-id
intersection with an active whitelist is empty contributes zero rows (the
entire group is skipped); otherwise exactly one row is emitted per (surviving
provider-group id, price entry) pair. -/
theorem c6_rate_group_filtering (cptWhitelist : Option (List String))
    (flt : Option (List Int)) (meta : FileMeta) (item : InNetworkItem)
    (h : RateExtractor.cptSkip cptWhitelist item.billing_code = false) :
    RateExtractor.process_rate cptWhitelist flt meta item
        = (item.negotiated_rates.map
            (RateExtractor.rate_group_rows flt (RateExtractor.base_info item meta))).flatten
    ∧ ∀ rg ∈ item.negotiated_rates,
        (∀ wl, flt = some wl →
          rg.provider_references.filter (fun p => decide (p ∈ wl)) = [] →
          RateExtractor.rate_group_rows flt (RateExtractor.base_info item meta) rg = [])
        ∧ (RateExtractor.rate_group_rows flt (RateExtractor.base_info item meta) rg).length
            = (RateExtractor.survivors flt rg).length * rg.negotiated_prices.length := by
  refine ⟨by simp [RateExtractor.process_rate, h], ?_⟩
  intro rg _
  constructor
  · intro wl hwl hempty
    subst hwl
    simp [RateExtractor.rate_group_rows, hempty]
  · cases flt with
    | none =>
        simp [RateExtractor.rate_group_rows, RateExtractor.survivors,
          RateExtractor.crossRows_length]
    | some wl =>
        simp only [RateExtractor.rate_group_rows, RateExtractor.survivors]
        split
        · simp_all
        · rw [RateExtractor.crossRows_length]

/-- C6 sample price entry. -/
def priceSample : Price :=
  { negotiated_rate := some 5, negotiated_type := "negotiated",
    billing_class := "professional", expiration_date := "9999-12-31",
    service_code := ["11"] }

/-- C6 sample rate group: two provider-reference ids, one price. -/
def rgSample : RateGroup :=
  { provider_references := [10, 20], negotiated_prices := [priceSample] }

/-- C6 sample item carrying `rgSample`. -/
def itemSample : InNetworkItem :=
  { billing_code := "99213", billing_code_type := "CPT", description := "visit",
    name := "office visit", negotiation_arrangement := "ffs",
    negotiated_rates := [rgSample] }

/-- C6 witness: for a concrete item passing a CPT whitelist, with the
provider-group whitelist containing only id 20, the sample rate group emits
exactly one surviving id times one price, one row. -/
theorem c6_rate_group_filtering_witness :
    (RateExtractor.rate_group_rows (some [20])
          (RateExtractor.base_info itemSample []) rgSample).length
      = (RateExtractor.survivors (some [20]) rgSample).length
          * rgSample.negotiated_prices.length :=
  ((c6_rate_group_filtering (some ["99213"]) (some [20]) [] itemSample
      (by decide)).2 rgSample (by decide)).2

namespace ProviderExtractor

/-- The statistics dictionary of `ProviderExtractor.__init__`
(extract_providers_pro.py lines 71-81), restricted to the counters the
processing loop updates (timing and memory fields are wall-clock/OS state,
out of a functional model). -/
structure Stats where
  providers_examined : Nat
  providers_filtered_by_group : Nat
  providers_filtered_by_tin : Nat
  providers_processed : Nat
  ref_files_fetched : Nat
  ref_files_errors : Nat
  deriving Repr, DecidableEq

/-- The TIN value of a group as `_process_provider_reference` computes it
(lines 185-186): empty when the `tin` object or its `value` key is absent,
otherwise the stripped string value. -/
def tin_value_of (g : ProviderGroup) : String :=
  match g.tin with
  | none => ""
  | some t => (t.value.getD "").trim

/-- The TIN type of a group (line 198): `tin_info.get("type", "")`. -/
def tin_type_of (g : ProviderGroup) : String :=
  match g.tin with
  | none => ""
  | some t => t.tinType

/-- The TIN whitelist condition of line 189:
`self.tin_whitelist and tin_value and tin_value not in self.tin_whitelist` —
a group is skipped only when the whitelist is non-empty, the TIN value is
non-empty and the value is not a member. -/
def tinSkip (tinWhitelist : List String) (tv : String) : Bool :=
  decide (tinWhitelist ≠ []) && decide (tv ≠ "") && decide (tv ∉ tinWhitelist)

/-- Assembly of one provider output row (lines 195-201). -/
def mkProvRow (pgid : Option Int) (meta : FileMeta) (g : ProviderGroup)
    (npiValue : String) : ProvRow :=
  { provider_group_id := pgid, npi := npiValue, tin_type := tin_type_of g,
    tin_value := tin_value_of g, meta := meta }

/-- The per-group body of the loop of `_process_provider_reference`
(lines 184-207): apply the TIN filter, then append one row per NPI to the
batch writer (with its automatic flushes) and count each row in
`providers_processed`. -/
def process_group (batchSize : Nat) (tinWhitelist : List String)
    (pgid : Option Int) (meta : FileMeta)
    (acc : WriterState × Stats) (g : ProviderGroup) : WriterState × Stats :=
  let tv := tin_value_of g
  if tinSkip tinWhitelist tv then
    (acc.1, { acc.2 with
      providers_filtered_by_tin := acc.2.providers_filtered_by_tin + 1 })
  else
    g.npi.foldl (fun a npiValue =>
      (appendRow batchSize a.1 (mkProvRow pgid meta g npiValue),
       { a.2 with providers_processed := a.2.providers_processed + 1 })) acc

/-- Outcome of fetching and streaming a remote provider-reference document
(`download_to_temp` plus the `ijson.items` loop of
`_iter_provider_groups_from_url`, lines 124-139): the download itself may
raise (`fetchFail`); the parse may raise after having yielded a prefix of the
groups (`decodeFail gs` — the exception is raised by the iterator after the
groups `gs` were already yielded to the caller); or the whole
`provider_groups` array decodes (`ok gs`). -/
inductive FetchResult where
  | fetchFail
  | decodeFail (groups : List ProviderGroup)
  | ok (groups : List ProviderGroup)
  deriving Repr, DecidableEq

/-- `ProviderExtractor._iter_provider_groups_from_url` (lines 111-145):
skip an empty or already-seen URL; otherwise record the URL as seen, then
fetch — a download failure increments `ref_files_errors` and yields nothing;
a decode failure midway increments `ref_files_fetched` and
`ref_files_errors` and yields the groups decoded before the failure; a full
decode increments `ref_files_fetched` and yields all groups.  In every case
the exception is swallowed (lines 137-139), so the caller continues. -/
def iter_provider_groups_from_url (fetch : String → FetchResult)
    (seenUrls : List String) (stats : Stats) (url : String) :
    List String × Stats × List ProviderGroup :=
  if url = "" then (seenUrls, stats, [])
  else if url ∈ seenUrls then (seenUrls, stats, [])
  else
    let seenUrls := seenUrls ++ [url]
    match fetch url with
    | .fetchFail =>
        (seenUrls, { stats with ref_files_errors := stats.ref_files_errors + 1 }, [])
    | .decodeFail gs =>
        (seenUrls, { stats with ref_files_fetched := stats.ref_files_fetched + 1,
                                ref_files_errors := stats.ref_files_errors + 1 }, gs)
    | .ok gs =>
        (seenUrls, { stats with ref_files_fetched := stats.ref_files_fetched + 1 }, gs)

/-- `ProviderExtractor._iter_provider_groups` (lines 147-162): non-empty
inline `provider_groups` win; otherwise a truthy `location` URL is fetched;
otherwise the reference is inert and yields nothing. -/
def iter_provider_groups (fetch : String → FetchResult)
    (seenUrls : List String) (stats : Stats) (r : ProviderRef) :
    List String × Stats × List ProviderGroup :=
  if r.provider_groups ≠ [] then (seenUrls, stats, r.provider_groups)
  else
    match r.location with
    | some url =>
        if url ≠ "" then iter_provider_groups_from_url fetch seenUrls stats url
        else (seenUrls, stats, [])
    | none => (seenUrls, stats, [])

/-- Truthy membership of an optional id in the whitelist: `None` is never a
member of a set of integers. -/
def memOptionInt (id : Option Int) (wl : List Int) : Bool :=
  match id with
  | some i => decide (i ∈ wl)
  | none => false

/-- The whitelist condition of line 173:
`self.provider_group_whitelist and provider_group_id not in
self.provider_group_whitelist` — skip only when the whitelist is non-empty
and the id is not a member. -/
def groupFilterSkip (wl : List Int) (id : Option Int) : Bool :=
  decide (wl ≠ []) && !(memOptionInt id wl)

/-- Configuration of one provider extraction: constructor arguments of
`ProviderExtractor.__init__` plus the network, modelled as a function from
URLs to fetch outcomes. -/
structure Config where
  batchSize : Nat
  provider_group_whitelist : List Int
  tin_whitelist : List String
  fetch : String → FetchResult

/-- Instance state of one `ProviderExtractor` during `process_file`: the two
deduplication sets (`self._seen_ref_urls`, `self._seen_group_ids`, kept as
insertion-ordered lists), the batch writer and the statistics. -/
structure ExtractorState where
  seen_ref_urls : List String
  seen_group_ids : List (Option Int)
  writer : WriterState
  stats : Stats

/-- `ProviderExtractor._process_provider_reference` (lines 164-219): count
the reference as examined; drop it if the whitelist filters its id; drop it
if its id was already resolved (`self._seen_group_ids`); otherwise record the
id as seen, materialize the groups (inline or remote) and emit the rows. -/
def process_provider_reference (cfg : Config) (meta : FileMeta)
    (st : ExtractorState) (r : ProviderRef) : ExtractorState :=
  let stats0 := { st.stats with
    providers_examined := st.stats.providers_examined + 1 }
  if groupFilterSkip cfg.provider_group_whitelist r.provider_group_id then
    { st with stats := { stats0 with
        providers_filtered_by_group := stats0.providers_filtered_by_group + 1 } }
  else if r.provider_group_id ∈ st.seen_group_ids then
    { st with stats := stats0 }
  else
    let t := iter_provider_groups cfg.fetch st.seen_ref_urls stats0 r
    let a := t.2.2.foldl
      (process_group cfg.batchSize cfg.tin_whitelist r.provider_group_id meta)
      (st.writer, t.2.1)
    { seen_ref_urls := t.1,
      seen_group_ids := st.seen_group_ids ++ [r.provider_group_id],
      writer := a.1,
      stats := a.2 }

/-- The reference loop of `ProviderExtractor.process_file` (lines 247-259,
without a `max_providers` cap): process each reference in stream order,
threading the extractor state. -/
def process_refs (cfg : Config) (meta : FileMeta) :
    ExtractorState → List ProviderRef → ExtractorState
  | st, [] => st
  | st, r :: rest => process_refs cfg meta (process_provider_reference cfg meta st r) rest

/-- The state of a freshly constructed `ProviderExtractor`. -/
def initState : ExtractorState :=
  { seen_ref_urls := [], seen_group_ids := [],
    writer := { batch := [], file := [] },
    stats := { providers_examined := 0, providers_filtered_by_group := 0,
               providers_filtered_by_tin := 0, providers_processed := 0,
               ref_files_fetched := 0, ref_files_errors := 0 } }

theorem process_group_npi_fold (batchSize : Nat) (pgid : Option Int)
    (meta : FileMeta) (g : ProviderGroup) :
    ∀ (npis : List String) (w : WriterState) (s : Stats),
      npis.foldl (fun a npiValue =>
          (appendRow batchSize a.1 (mkProvRow pgid meta g npiValue),
           { a.2 with providers_processed := a.2.providers_processed + 1 })) (w, s)
        = ((npis.map (mkProvRow pgid meta g)).foldl (appendRow batchSize) w,
           { s with providers_processed := s.providers_processed + npis.length }) := by
  intro npis
  induction npis with
  | nil => intro w s; simp
  | cons n rest ih =>
      intro w s
      cases s
      rw [List.foldl_cons, ih, List.map_cons, List.foldl_cons, List.length_cons]
      rw [Prod.mk.injEq]
      refine ⟨rfl, ?_⟩
      have harith : ∀ m : Nat, m + 1 + rest.length = m + (rest.length + 1) := by omega
      rw [harith]

end ProviderExtractor

/-- C10: a resolved provider group whose TIN value is absent or empty is not
subject to the TIN whitelist filter: for every TIN whitelist (in particular
one not containing the empty string), every batch size and writer state, the
group contributes exactly one appended row per NPI, in order, and
`providers_processed` grows by the number of NPIs. -/
theorem c10_empty_tin_bypasses_whitelist (batchSize : Nat)
    (tinWhitelist : List String) (pgid : Option Int) (meta : FileMeta)
    (g : ProviderGroup) (w : ProviderExtractor.WriterState)
    (s : ProviderExtractor.Stats)
    (h : ProviderExtractor.tin_value_of g = "") :
    ProviderExtractor.process_group batchSize tinWhitelist pgid meta (w, s) g
      = ((g.npi.map (ProviderExtractor.mkProvRow pgid meta g)).foldl
            (ProviderExtractor.appendRow batchSize) w,
         { s with providers_processed := s.providers_processed + g.npi.length }) := by
  have hskip : ProviderExtractor.tinSkip tinWhitelist (ProviderExtractor.tin_value_of g)
      = false := by
    rw [h]
    simp [ProviderExtractor.tinSkip]
  calc ProviderExtractor.process_group batchSize tinWhitelist pgid meta (w, s) g
      = g.npi.foldl (fun a npiValue =>
          (ProviderExtractor.appendRow batchSize a.1
              (ProviderExtractor.mkProvRow pgid meta g npiValue),
           { a.2 with providers_processed := a.2.providers_processed + 1 })) (w, s) := by
        unfold ProviderExtractor.process_group
        simp only [hskip, Bool.false_eq_true, if_false]
    _ = ((g.npi.map (ProviderExtractor.mkProvRow pgid meta g)).foldl
            (ProviderExtractor.appendRow batchSize) w,
         { s with providers_processed := s.providers_processed + g.npi.length }) :=
        ProviderExtractor.process_group_npi_fold batchSize pgid meta g g.npi w s

/-- C10 witness: a group with an absent TIN object and two NPIs, against the
whitelist that contains only the TIN value 55 (and not the empty string),
still emits one row per NPI. -/
theorem c10_empty_tin_bypasses_whitelist_witness :
    ProviderExtractor.process_group 10 ["55"] (some 1) []
        ({ batch := [], file := [] }, ProviderExtractor.initState.stats)
        { tin := none, npi := ["111", "222"] }
      = ((({ tin := none, npi := ["111", "222"] } : ProviderGroup).npi.map
            (ProviderExtractor.mkProvRow (some 1) [] { tin := none, npi := ["111", "222"] })).foldl
            (ProviderExtractor.appendRow 10) { batch := [], file := [] },
         { ProviderExtractor.initState.stats with
             providers_processed := ProviderExtractor.initState.stats.providers_processed + 2 }) :=
  c10_empty_tin_bypasses_whitelist 10 ["55"] (some 1) []
    { tin := none, npi := ["111", "222"] } { batch := [], file := [] }
    ProviderExtractor.initState.stats (by decide)

namespace ProviderExtractor

theorem process_provider_reference_seen (cfg : Config) (meta : FileMeta)
    (st : ExtractorState) (r : ProviderRef) :
    (process_provider_reference cfg meta st r).seen_group_ids
      = if groupFilterSkip cfg.provider_group_whitelist r.provider_group_id then
          st.seen_group_ids
        else if r.provider_group_id ∈ st.seen_group_ids then st.seen_group_ids
        else st.seen_group_ids ++ [r.provider_group_id] := by
  unfold process_provider_reference
  split
  · rfl
  · split
    · rfl
    · rfl

theorem process_provider_reference_mem (cfg : Config) (meta : FileMeta)
    (st : ExtractorState) (r : ProviderRef) (id : Option Int) :
    id ∈ (process_provider_reference cfg meta st r).seen_group_ids
      ↔ id ∈ st.seen_group_ids
        ∨ (groupFilterSkip cfg.provider_group_whitelist id = false
            ∧ id = r.provider_group_id) := by
  rw [process_provider_reference_seen]
  split
  · rename_i hskip
    constructor
    · exact Or.inl
    · rintro (hmem | ⟨hflt, rfl⟩)
      · exact hmem
      · rw [hflt] at hskip
        exact Bool.noConfusion hskip
  · rename_i hskip
    have hskipf : groupFilterSkip cfg.provider_group_whitelist r.provider_group_id
        = false := by simpa using hskip
    split
    · rename_i hmem
      constructor
      · exact Or.inl
      · rintro (h1 | ⟨hflt, rfl⟩)
        · exact h1
        · exact hmem
    · simp only [List.mem_append, List.mem_singleton]
      constructor
      · rintro (h1 | rfl)
        · exact Or.inl h1
        · exact Or.inr ⟨hskipf, rfl⟩
      · rintro (h1 | ⟨hflt, rfl⟩)
        · exact Or.inl h1
        · exact Or.inr rfl

theorem process_provider_reference_nodup (cfg : Config) (meta : FileMeta)
    (st : ExtractorState) (r : ProviderRef)
    (h : st.seen_group_ids.Nodup) :
    (process_provider_reference cfg meta st r).seen_group_ids.Nodup := by
  rw [process_provider_reference_seen]
  split
  · exact h
  · split
    · exact h
    · rename_i hmem
      simp [List.nodup_append, h, hmem]

theorem process_refs_mem (cfg : Config) (meta : FileMeta) :
    ∀ (refs : List ProviderRef) (st : ExtractorState) (id : Option Int),
      id ∈ (process_refs cfg meta st refs).seen_group_ids
        ↔ id ∈ st.seen_group_ids
          ∨ (groupFilterSkip cfg.provider_group_whitelist id = false
              ∧ ∃ r ∈ refs, r.provider_group_id = id) := by
  intro refs
  induction refs with
  | nil => intro st id; simp [process_refs]
  | cons r rest ih =>
      intro st id
      rw [process_refs, ih, process_provider_reference_mem]
      simp only [List.exists_mem_cons_iff]
      constructor
      · rintro ((h1 | ⟨hflt, rfl⟩) | ⟨hflt, hex⟩)
        · exact Or.inl h1
        · exact Or.inr ⟨hflt, Or.inl rfl⟩
        · exact Or.inr ⟨hflt, Or.inr hex⟩
      · rintro (h1 | ⟨hflt, heq | hex⟩)
        · exact Or.inl (Or.inl h1)
        · exact Or.inl (Or.inr ⟨hflt, heq.symm⟩)
        · exact Or.inr ⟨hflt, hex⟩

theorem process_refs_nodup (cfg : Config) (meta : FileMeta) :
    ∀ (refs : List ProviderRef) (st : ExtractorState),
      st.seen_group_ids.Nodup → (process_refs cfg meta st refs).seen_group_ids.Nodup := by
  intro refs
  induction refs with
  | nil => intro st h; simpa [process_refs] using h
  | cons r rest ih =>
      intro st h
      rw [process_refs]
      exact ih _ (process_provider_reference_nodup cfg meta st r h)

end ProviderExtractor

/-- C3: `self._seen_group_ids` records exactly the reference ids whose groups
were materialized (an id is added at line 180, immediately before the
materialization loop of lines 184-207, and an id already present returns at
line 179 before any resolution).  Over every source stream: the list of
resolved ids has no duplicate (materialization happens at most once per id,
whether the resolution succeeded or failed), and an id is resolved iff it
passes the whitelist filter and occurs in the stream — hence exactly once per
id among references that pass the filter. -/
theorem c3_reference_resolved_once (cfg : ProviderExtractor.Config)
    (meta : FileMeta) (refs : List ProviderRef) :
    ((ProviderExtractor.process_refs cfg meta ProviderExtractor.initState
        refs).seen_group_ids).Nodup
    ∧ ∀ id : Option Int,
        id ∈ (ProviderExtractor.process_refs cfg meta ProviderExtractor.initState
            refs).seen_group_ids
          ↔ ProviderExtractor.groupFilterSkip cfg.provider_group_whitelist id = false
            ∧ ∃ r ∈ refs, r.provider_group_id = id := by
  constructor
  · exact ProviderExtractor.process_refs_nodup cfg meta refs _
      (by simp [ProviderExtractor.initState])
  · intro id
    rw [ProviderExtractor.process_refs_mem]
    simp [ProviderExtractor.initState]

/-- C3 sample configuration: no whitelists, batch size 10, every URL
resolving to an empty document. -/
def cfgSample : ProviderExtractor.Config :=
  { batchSize := 10, provider_group_whitelist := [], tin_whitelist := [],
    fetch := fun _ => .ok [] }

/-- C3 sample stream: the same reference id 7 occurs twice, with inline
groups. -/
def refsSample : List ProviderRef :=
  [ { provider_group_id := some 7,
      provider_groups := [{ tin := none, npi := ["111"] }], location := none },
    { provider_group_id := some 7,
      provider_groups := [{ tin := none, npi := ["111"] }], location := none } ]

/-- C3 witness: on a stream repeating id 7, the resolved-id list is
duplicate-free and id 7 is resolved (exactly once). -/
theorem c3_reference_resolved_once_witness :
    ((ProviderExtractor.process_refs cfgSample [] ProviderExtractor.initState
        refsSample).seen_group_ids).Nodup
    ∧ (some 7 ∈ (ProviderExtractor.process_refs cfgSample [] ProviderExtractor.initState
          refsSample).seen_group_ids
        ↔ ProviderExtractor.groupFilterSkip cfgSample.provider_group_whitelist
              (some 7) = false
          ∧ ∃ r ∈ refsSample, r.provider_group_id = some 7) :=
  ⟨(c3_reference_resolved_once cfgSample [] refsSample).1,
   (c3_reference_resolved_once cfgSample [] refsSample).2 (some 7)⟩

/-- C9 sample provider group decoded before a parse failure. -/
def gSampleC9 : ProviderGroup := { tin := none, npi := ["333"] }

/-- C9 sample network: the reference URL decodes one group and then raises
(a truncated/malformed remote document). -/
def fetchC9 : String → ProviderExtractor.FetchResult :=
  fun url =>
    if url = "https://ref.example/pg1.json" then .decodeFail [gSampleC9]
    else .fetchFail

/-- C9 counterexample: a decode failure partway through the remote
`provider_groups` array increments the error counter but does NOT yield zero
provider groups — the group decoded before the failure was already yielded
(the `yield` at extract_providers_pro.py line 136 runs inside the `try`, so
rows emitted before the exception stand).  This refutes the claim that a
decode failure "causes the resolver to yield nothing (zero provider groups)
for that reference". -/
theorem c9_counterexample_partial_yield :
    (ProviderExtractor.iter_provider_groups_from_url fetchC9 []
        ProviderExtractor.initState.stats "https://ref.example/pg1.json").2.2
      = [gSampleC9]
    ∧ (ProviderExtractor.iter_provider_groups_from_url fetchC9 []
          ProviderExtractor.initState.stats "https://ref.example/pg1.json").2.2 ≠ []
    ∧ (ProviderExtractor.iter_provider_groups_from_url fetchC9 []
          ProviderExtractor.initState.stats
          "https://ref.example/pg1.json").2.1.ref_files_errors = 1 := by decide

/-- C9 amended: for a fresh, non-empty reference URL — a network failure
during the fetch increments the error counter and yields nothing; a decode
failure during the parse increments the error counter and yields exactly the
groups decoded before the failure (nothing further); a clean parse yields all
groups with no error.  Every case is non-fatal: the reference loop always
continues with the next reference in the stream. -/
theorem c9_remote_failure_semantics (fetch : String → ProviderExtractor.FetchResult)
    (seenUrls : List String) (stats : ProviderExtractor.Stats) (url : String)
    (hurl : url ≠ "") (hseen : url ∉ seenUrls) :
    (fetch url = .fetchFail →
        ProviderExtractor.iter_provider_groups_from_url fetch seenUrls stats url
          = (seenUrls ++ [url],
             { stats with ref_files_errors := stats.ref_files_errors + 1 }, []))
    ∧ (∀ gs, fetch url = .decodeFail gs →
        ProviderExtractor.iter_provider_groups_from_url fetch seenUrls stats url
          = (seenUrls ++ [url],
             { stats with ref_files_fetched := stats.ref_files_fetched + 1,
                          ref_files_errors := stats.ref_files_errors + 1 }, gs))
    ∧ (∀ gs, fetch url = .ok gs →
        ProviderExtractor.iter_provider_groups_from_url fetch seenUrls stats url
          = (seenUrls ++ [url],
             { stats with ref_files_fetched := stats.ref_files_fetched + 1 }, gs))
    ∧ (∀ (cfg : ProviderExtractor.Config) (meta : FileMeta)
          (st : ProviderExtractor.ExtractorState) (r : ProviderRef)
          (rest : List ProviderRef),
        ProviderExtractor.process_refs cfg meta st (r :: rest)
          = ProviderExtractor.process_refs cfg meta
              (ProviderExtractor.process_provider_reference cfg meta st r) rest) := by
  unfold ProviderExtractor.iter_provider_groups_from_url
  rw [if_neg hurl, if_neg hseen]
  refine ⟨?_, ?_, ?_, ?_⟩
  · intro h
    rw [h]
  · intro gs h
    rw [h]
  · intro gs h
    rw [h]
  · intro cfg meta st r rest
    rfl

/-- C9 witness: the amended behavior evaluated at the concrete network of the
counterexample — the decode failure yields exactly the one group decoded
before the failure and counts one error. -/
theorem c9_remote_failure_semantics_witness :
    ProviderExtractor.iter_provider_groups_from_url fetchC9 []
        ProviderExtractor.initState.stats "https://ref.example/pg1.json"
      = (["https://ref.example/pg1.json"],
         { ProviderExtractor.initState.stats with
             ref_files_fetched := ProviderExtractor.initState.stats.ref_files_fetched + 1,
             ref_files_errors := ProviderExtractor.initState.stats.ref_files_errors + 1 },
         [gSampleC9]) :=
  (c9_remote_failure_semantics fetchC9 [] ProviderExtractor.initState.stats
      "https://ref.example/pg1.json" (by decide) (by decide)).2.1 [gSampleC9] (by decide)

/-! ### The metadata scan (claim C7) -/

/-- One event of the `ijson.parse` event stream: the `(prefix, event, value)`
triple the scan loop unpacks (values rendered as strings; the scan only
compares the first component and stores the third). -/
structure ParseEvent where
  pfx : String
  ev : String
  value : String
  deriving Repr, DecidableEq

/-- The four top-level scalar keys both scan loops collect
(extract_rates.py line 249, extract_providers_pro.py line 242). -/
def metaKeys : List String :=
  ["reporting_entity_name", "reporting_entity_type", "last_updated_on", "version"]

/-- Python dictionary assignment `file_metadata[prefix] = value`: any earlier
binding of the key is replaced. -/
def setMeta (m : FileMeta) (k v : String) : FileMeta :=
  (m.filter (fun q => q.1 ≠ k)) ++ [(k, v)]

/-- The metadata scan loop shared by `RateExtractor.process_file`
(extract_rates.py lines 246-253) and `ProviderExtractor.process_file`
(extract_providers_pro.py lines 239-245): for each parse event, a metadata
key stores its value and scanning continues; the array key (`in_network`
resp. `provider_references`) breaks the loop; any other event is skipped and
scanning continues.  Returns the collected metadata and the number of events
consumed. -/
def scan_metadata (arrayKey : String) (m : FileMeta) :
    List ParseEvent → FileMeta × Nat
  | [] => (m, 0)
  | e :: rest =>
      if e.pfx ∈ metaKeys then
        let r := scan_metadata arrayKey (setMeta m e.pfx e.value) rest
        (r.1, r.2 + 1)
      else if e.pfx = arrayKey then (m, 1)
      else
        let r := scan_metadata arrayKey m rest
        (r.1, r.2 + 1)

/-- The metadata scan of the rate extractor. -/
def rates_metadata_scan (events : List ParseEvent) : FileMeta × Nat :=
  scan_metadata "in_network" [] events

/-- The metadata scan of the provider extractor. -/
def providers_metadata_scan (events : List ParseEvent) : FileMeta × Nat :=
  scan_metadata "provider_references" [] events

/-- C7 counterexample event stream: all four metadata keys appear in the
first four events; a fifth unrelated scalar event precedes the array
start. -/
def evsC7 : List ParseEvent :=
  [ { pfx := "reporting_entity_name", ev := "string", value := "Acme Health" },
    { pfx := "reporting_entity_type", ev := "string", value := "payer" },
    { pfx := "last_updated_on", ev := "string", value := "2025-08-01" },
    { pfx := "version", ev := "string", value := "1.0.0" },
    { pfx := "plan_market_type", ev := "string", value := "group" },
    { pfx := "in_network", ev := "start_array", value := "" } ]

/-- C7 counterexample: on `evsC7` all four named scalar keys have been
observed after the fourth event, yet the scan consumes all six events — it
does not stop once the four keys are seen, only when the array begins.  This
refutes "stops as soon as either all four named scalar keys have been
observed or the first large array begins, whichever happens first". -/
theorem c7_counterexample_scans_past_keys :
    (∀ k ∈ metaKeys, k ∈ (evsC7.take 4).map ParseEvent.pfx)
    ∧ (rates_metadata_scan evsC7).2 = 6
    ∧ (rates_metadata_scan evsC7).2 ≠ 4 := by decide

/-- Where the amended scan stops: one past the first event whose key is the
array key (the whole stream when there is none).  This is the amended claim's
description of the stopping point, to be compared with `scan_metadata`. -/
def consumedUntilArray (arrayKey : String) : List ParseEvent → Nat
  | [] => 0
  | e :: rest =>
      if e.pfx = arrayKey then 1 else 1 + consumedUntilArray arrayKey rest

/-- C7 amended: provided the array key is not itself one of the four metadata
keys (true of both `in_network` and `provider_references`), the scan consumes
events up to and including the first array-start event — or the entire stream
when no array begins — regardless of which metadata keys have been seen and
of the metadata accumulated so far. -/
theorem c7_scan_stops_only_at_array (arrayKey : String)
    (h : arrayKey ∉ metaKeys) :
    ∀ (events : List ParseEvent) (m : FileMeta),
      (scan_metadata arrayKey m events).2 = consumedUntilArray arrayKey events := by
  intro events
  induction events with
  | nil => intro m; rfl
  | cons e rest ih =>
      intro m
      by_cases hk : e.pfx ∈ metaKeys
      · have hne : e.pfx ≠ arrayKey := fun hEq => h (hEq ▸ hk)
        rw [scan_metadata, consumedUntilArray, if_pos hk, if_neg hne]
        dsimp only
        rw [ih]
        omega
      · by_cases ha : e.pfx = arrayKey
        · rw [scan_metadata, consumedUntilArray, if_neg hk, if_pos ha, if_pos ha]
        · rw [scan_metadata, consumedUntilArray, if_neg hk, if_neg ha, if_neg ha]
          dsimp only
          rw [ih]
          omega

/-- C7 witness: on the counterexample stream the scan consumes exactly the
six events up to and including the array start. -/
theorem c7_scan_stops_only_at_array_witness :
    (scan_metadata "in_network" [] evsC7).2 = consumedUntilArray "in_network" evsC7 :=
  c7_scan_stops_only_at_array "in_network" (by decide) evsC7 []

/-! ### Stream handles per pass (claim C8) -/

/-- The operations `process_file` performs on the compressed source stream,
in order. -/
inductive StreamAccess where
  | openHandle
  | seekStart
  | metadataPass
  | itemPass
  deriving Repr, DecidableEq

/-- Transcription of `RateExtractor.process_file` (extract_rates.py lines
244-257): the metadata pass runs inside one `gzip.open` context manager and
the item pass inside a second, separate one — the source comments "avoid
gzip.seek(0) by reopening" / "separate file handle". -/
def rates_process_file_stream_accesses : List StreamAccess :=
  [.openHandle, .metadataPass, .openHandle, .itemPass]

/-- Transcription of `ProviderExtractor.process_file`
(extract_providers_pro.py lines 237-259): a single `gzip.open`, the metadata
pass, then `gz_file.seek(0)` (line 248) and the item pass on the same
handle. -/
def providers_process_file_stream_accesses : List StreamAccess :=
  [.openHandle, .metadataPass, .seekStart, .itemPass]

/-- The claimed discipline: one fresh handle per logical pass (two opens) and
never a seek back to the start of a consumed stream. -/
def freshHandlePerPass (t : List StreamAccess) : Prop :=
  t.count .openHandle = 2 ∧ StreamAccess.seekStart ∉ t

/-- C8 counterexample: the provider extractor does NOT open a fresh handle
per pass — it opens one handle and restarts the second pass with
`gz_file.seek(0)` on the already-consumed stream.  This refutes "the engine
never restarts a pass by seeking an already-consumed compressed stream back
to its start" for the provider extraction job. -/
theorem c8_counterexample_providers_seek :
    ¬ freshHandlePerPass providers_process_file_stream_accesses
    ∧ StreamAccess.seekStart ∈ providers_process_file_stream_accesses := by
  unfold freshHandlePerPass
  decide

/-- C8 amended: the rate extractor performs its two passes on two fresh
stream handles with no seek; the provider extractor opens a single handle for
both passes and rewinds it with `seek(0)` between the metadata scan and the
item stream. -/
theorem c8_stream_pass_discipline :
    freshHandlePerPass rates_process_file_stream_accesses
    ∧ providers_process_file_stream_accesses.count StreamAccess.openHandle = 1
    ∧ StreamAccess.seekStart ∈ providers_process_file_stream_accesses := by
  unfold freshHandlePerPass
  decide

/-! ### Backup consolidation (claim C4) and the locked destination (claim C5) -/

namespace RateExtractor

/-- One backup file beside the primary output: the rows it holds and whether
`pd.read_parquet` succeeds on it (an unreadable file still holds its bytes —
its rows are recoverable data until the file is deleted). -/
structure BackupFile where
  rows : List RateRow
  readable : Bool
  deriving Repr, DecidableEq

/-- The output directory as `_consolidate_backup_files` sees it: the primary
output file (`none` when it does not exist) and the backup files matching
the glob pattern beside it. -/
structure OutputDir where
  primary : Option (List RateRow)
  backups : List BackupFile
  deriving Repr, DecidableEq

/-- `RateExtractor._consolidate_backup_files` (extract_rates.py lines
330-385): a no-op when the primary is missing or no backup file exists; the
readable backups' rows are concatenated onto the primary's rows (written to a
`_consolidated` file which then replaces the primary via `shutil.move`);
when at least one backup was readable, EVERY backup file — including those
whose read failed — is deleted in the cleanup loop of lines 376-381; when
no backup could be read, nothing is merged or deleted. -/
def consolidate_backup_files (d : OutputDir) : OutputDir :=
  match d.primary with
  | none => d
  | some mainRows =>
      if d.backups = [] then d
      else
        let readableBackups := d.backups.filter (fun b => b.readable)
        if readableBackups = [] then d
        else { primary := some
                 (mainRows ++ (readableBackups.map (fun b => b.rows)).flatten),
               backups := [] }

/-- Every row held somewhere in the output directory (primary or any backup
file, readable or not). -/
def allRows (d : OutputDir) : List RateRow :=
  d.primary.getD [] ++ (d.backups.map (fun b => b.rows)).flatten

/-- A sample rate row distinguished by its billing code. -/
def rateRowTagged (code : String) : RateRow :=
  { provider_reference_id := 1, negotiated_rate := 0, negotiated_type := "",
    billing_class := "", expiration_date := "", service_codes := "",
    billing_code := code, billing_code_type := "", description := "",
    name := "", negotiation_arrangement := "", meta := [] }

/-- C4 counterexample directory: a primary, one readable backup and one
unreadable backup. -/
def dirC4 : OutputDir :=
  { primary := some [rateRowTagged "A"],
    backups := [ { rows := [rateRowTagged "B"], readable := true },
                 { rows := [rateRowTagged "C"], readable := false } ] }

end RateExtractor

/-- C4 counterexample: consolidation deletes the unreadable backup without
having merged its rows — the row tagged C is present in the directory before
consolidation and gone afterwards.  This refutes "deletes a backup file only
after its rows have been successfully merged — partial consolidation
(including a backup file that cannot be read) never loses backup data". -/
theorem c4_counterexample_unreadable_backup_deleted :
    RateExtractor.rateRowTagged "C" ∈ RateExtractor.allRows RateExtractor.dirC4
    ∧ RateExtractor.consolidate_backup_files RateExtractor.dirC4
        = { primary := some [RateExtractor.rateRowTagged "A",
                             RateExtractor.rateRowTagged "B"], backups := [] }
    ∧ RateExtractor.rateRowTagged "C"
        ∉ RateExtractor.allRows
            (RateExtractor.consolidate_backup_files RateExtractor.dirC4) := by decide

/-- C4 amended: consolidation is a no-op when the primary is missing, when
there is no backup file, or when no backup file is readable; otherwise it
merges the rows of exactly the READABLE backup files (in order) onto the
primary — replacing the primary with the merged file — and then deletes every
backup file, the unreadable ones included, whose rows are thereby lost. -/
theorem c4_consolidation_semantics (d : RateExtractor.OutputDir) :
    (d.primary = none → RateExtractor.consolidate_backup_files d = d)
    ∧ (d.backups = [] → RateExtractor.consolidate_backup_files d = d)
    ∧ (d.backups.filter (fun b => b.readable) = [] →
        RateExtractor.consolidate_backup_files d = d)
    ∧ (∀ m, d.primary = some m →
        d.backups ≠ [] →
        d.backups.filter (fun b => b.readable) ≠ [] →
        RateExtractor.consolidate_backup_files d
          = { primary := some (m ++ ((d.backups.filter (fun b => b.readable)).map
                (fun b => b.rows)).flatten),
              backups := [] }) := by
  refine ⟨?_, ?_, ?_, ?_⟩
  · intro h0
    unfold RateExtractor.consolidate_backup_files
    rw [h0]
  · intro h0
    unfold RateExtractor.consolidate_backup_files
    cases hp : d.primary with
    | none => rfl
    | some m =>
        dsimp only
        rw [if_pos h0]
  · intro h0
    unfold RateExtractor.consolidate_backup_files
    cases hp : d.primary with
    | none => rfl
    | some m =>
        dsimp only
        by_cases hb : d.backups = []
        · rw [if_pos hb]
        · rw [if_neg hb, if_pos h0]
  · intro m hm hb hr
    unfold RateExtractor.consolidate_backup_files
    rw [hm]
    dsimp only
    rw [if_neg hb, if_neg hr]

/-- C4 witness: the amended behavior evaluated on the counterexample
directory — the readable backup's row is merged, both backups deleted. -/
theorem c4_consolidation_semantics_witness :
    RateExtractor.consolidate_backup_files RateExtractor.dirC4
      = { primary := some ([RateExtractor.rateRowTagged "A"]
            ++ ((RateExtractor.dirC4.backups.filter (fun b => b.readable)).map
                  (fun b => b.rows)).flatten),
          backups := [] } :=
  (c4_consolidation_semantics RateExtractor.dirC4).2.2.2
    [RateExtractor.rateRowTagged "A"] (by decide) (by decide) (by decide)

/-- The possible failure of one flush when the destination parquet file is
held locked by another process. -/
inductive WriteFailure where
  | destinationLocked
  deriving Repr, DecidableEq

/-- `RateExtractor._write_batch` (extract_rates.py lines 142-163) run against
a destination that the OS reports locked at flush time: the function body has
no try/except and never calls `_wait_for_file_unlock` (defined at lines
114-131 but invoked nowhere), so the `PermissionError`/`OSError` raised by
the ParquetWriter propagates to the caller — modelled as `Except.error`.  No
code path writes a `*_backup_*.parquet` file. -/
def RateExtractor.write_batch_against_lock (locked : Bool)
    (st : RateExtractor.WriterState) :
    Except WriteFailure RateExtractor.WriterState :=
  if st.batch = [] then .ok st
  else if locked then .error .destinationLocked
  else .ok { batch := [], rowGroups := st.rowGroups ++ [st.batch] }

/-- C5 evaluation at the failing input: a flush of a non-empty batch against
a locked destination raises out of `_write_batch` — the extraction aborts; no
retry happens and no backup file receives the batch. -/
theorem c5_lock_error_propagates :
    RateExtractor.write_batch_against_lock true
        { batch := [RateExtractor.rateRowTagged "A"], rowGroups := [] }
      = .error .destinationLocked := by rfl

/-! ### Orchestrator failure classification and the manifest (claim C1) -/

namespace Orchestrator

/-- The outcome of the extraction subprocess as `process_one_extraction`
observes it: either `subprocess.run` returned (with a return code and, in
sequential mode, captured stderr — `none` models stderr sent elsewhere, as in
parallel mode) or it raised an exception.  `subprocess.run` is invoked
WITHOUT a `timeout` argument (extraction_orchestrator.py lines 502-507), so
no timeout outcome exists. -/
inductive SubprocessOutcome where
  | completed (returncode : Int) (stderr : Option String)
  | excRaised (message : String)
  deriving Repr, DecidableEq

/-- The fields of `process_one_extraction`'s result dictionary that the
manifest classification reads.  Task-identity fields (url, filename,
network_id, output files, duration) are carried through unchanged and do not
bear on classification. -/
structure ExtractionResult where
  success : Bool
  errorText : Option String
  deriving Repr, DecidableEq

/-- `process_one_extraction` (extraction_orchestrator.py lines 499-548):
return code 0 means success; any other return code means failure with the
captured stderr truncated to 500 characters ("Unknown error" when stderr is
empty or was not captured); a raised exception means failure with the message
truncated to 200 characters. -/
def process_one_extraction (o : SubprocessOutcome) : ExtractionResult :=
  match o with
  | .completed rc stderr =>
      if rc = 0 then { success := true, errorText := none }
      else
        { success := false,
          errorText := some (match stderr with
            | some s => if s = "" then "Unknown error" else s.take 500
            | none => "Unknown error") }
  | .excRaised msg => { success := false, errorText := some (msg.take 200) }

/-- One manifest entry, reduced to the classification fields. -/
structure ManifestEntry where
  status : String
  errorText : Option String
  deriving Repr, DecidableEq

/-- Manifest entry construction of `execute_batch` (lines 633-645 sequential,
685-698 parallel — identical classification):
`'status': 'success' if result['success'] else 'failed'`. -/
def manifest_entry (o : SubprocessOutcome) : ManifestEntry :=
  let r := process_one_extraction o
  { status := if r.success then "success" else "failed", errorText := r.errorText }

/-- The `extractions` list of the manifest after `execute_batch` over the
given task outcomes: one entry per task, in submission order (the sequential
loop appends in order; `executor.map` preserves input order in parallel
mode). -/
def execute_batch_manifest (outs : List SubprocessOutcome) : List ManifestEntry :=
  outs.map manifest_entry

/-- Whether the subprocess completed with return code 0. -/
def exitedZero (o : SubprocessOutcome) : Bool :=
  match o with
  | .completed rc _ => decide (rc = 0)
  | .excRaised _ => false

/-- A task whose subprocess succeeded. -/
def outcomeOk : SubprocessOutcome := .completed 0 none

/-- A task whose subprocess failed on an expired signed URL: non-zero exit
with a 403 message on stderr. -/
def outcome403 : SubprocessOutcome :=
  .completed 1 (some "requests.exceptions.HTTPError: 403 Client Error: Forbidden")

/-- Five tasks, the third of which receives a 403 response. -/
def outsC1 : List SubprocessOutcome :=
  [outcomeOk, outcomeOk, outcome403, outcomeOk, outcomeOk]

end Orchestrator

/-- C1 counterexample: for a batch of 5 tasks where task 3 receives a 403
response, the manifest does contain exactly 5 entries, but task 3 is marked
`failed` — not `failed_expired`.  The orchestrator inspects only the return
code (extraction_orchestrator.py line 517 and the `'success' if ... else
'failed'` entries); no code path in `extraction_orchestrator.py` produces a
`failed_expired` or `timed_out` status, and `subprocess.run` is given no
timeout.  (The 403 classification exists only in the archived legacy script
`docs/archive/batch_extract_nj_bcbs.py`, outside the orchestrator.) -/
theorem c1_counterexample_403_marked_failed :
    (Orchestrator.execute_batch_manifest Orchestrator.outsC1).length = 5
    ∧ (Orchestrator.execute_batch_manifest Orchestrator.outsC1).map
          Orchestrator.ManifestEntry.status
        = ["success", "success", "failed", "success", "success"]
    ∧ ("failed" : String) ≠ "failed_expired" := by decide

/-- C1 amended: the manifest holds exactly one entry per task, in submission
order; an entry's status is `success` when its subprocess exited 0 and
`failed` for every other outcome — a 403/access-denied failure included —
with diagnostic text captured for every failure; the statuses
`failed_expired` and `timed_out` are never produced (no wall-clock budget is
configured). -/
theorem c1_manifest_classification (outs : List Orchestrator.SubprocessOutcome) :
    (Orchestrator.execute_batch_manifest outs).length = outs.length
    ∧ (∀ i : Nat, (Orchestrator.execute_batch_manifest outs)[i]?
        = (outs[i]?).map Orchestrator.manifest_entry)
    ∧ (∀ o ∈ outs,
        (Orchestrator.manifest_entry o).status
            = (if Orchestrator.exitedZero o then "success" else "failed")
        ∧ (Orchestrator.exitedZero o = false →
            (Orchestrator.manifest_entry o).errorText.isSome = true)) := by
  refine ⟨by simp [Orchestrator.execute_batch_manifest], ?_, ?_⟩
  · intro i
    simp [Orchestrator.execute_batch_manifest]
  · intro o _
    constructor
    · cases o with
      | completed rc stderr =>
          by_cases h : rc = 0
          · simp [Orchestrator.manifest_entry, Orchestrator.process_one_extraction,
              Orchestrator.exitedZero, h]
          · simp [Orchestrator.manifest_entry, Orchestrator.process_one_extraction,
              Orchestrator.exitedZero, h]
      | excRaised msg =>
          simp [Orchestrator.manifest_entry, Orchestrator.process_one_extraction,
            Orchestrator.exitedZero]
    · intro hz
      cases o with
      | completed rc stderr =>
          have h : ¬ rc = 0 := by simpa [Orchestrator.exitedZero] using hz
          cases stderr <;>
            simp [Orchestrator.manifest_entry, Orchestrator.process_one_extraction, h]
      | excRaised msg =>
          simp [Orchestrator.manifest_entry, Orchestrator.process_one_extraction]

/-- C1 witness: the amended classification evaluated on the 5-task batch of
the counterexample — 5 entries, and the 403 task is a failure with captured
diagnostic text. -/
theorem c1_manifest_classification_witness :
    (Orchestrator.execute_batch_manifest Orchestrator.outsC1).length
        = Orchestrator.outsC1.length
    ∧ ((Orchestrator.manifest_entry Orchestrator.outcome403).status
          = (if Orchestrator.exitedZero Orchestrator.outcome403 then "success"
             else "failed")
        ∧ (Orchestrator.exitedZero Orchestrator.outcome403 = false →
            (Orchestrator.manifest_entry Orchestrator.outcome403).errorText.isSome
              = true)) :=
  ⟨(c1_manifest_classification Orchestrator.outsC1).1,
   (c1_manifest_classification Orchestrator.outsC1).2.2 Orchestrator.outcome403
     (by decide)⟩

end MrfEngine
